import Mathlib

/-!
Shallow embedding of `custom_components/powercalc/discovery.py`, the
auto-discovery sweep of the powercalc Home Assistant integration.

The entity registry, device registry, configuration-entry store, the
declarative YAML configuration and the power-profile library are host- or
sibling-module collaborators; they are modelled at their interface
boundary as fields of an `Env` value that a sweep reads.  Python `None`
and falsiness are modelled explicitly (`Option`, `pyStr`, `pyFalsy…`).
-/

/-- EntityCategory mirrors `homeassistant.helpers.entity.EntityCategory`;
only the two members used by `should_process_entity` are needed. -/
inductive EntityCategory where
  | config
  | diagnostic
deriving DecidableEq

/-- Integration domain constant `DOMAIN` from `const.py` (the powercalc
integration). -/
def DOMAIN : String := "powercalc"

/-- Home Assistant light domain constant. -/
def LIGHT_DOMAIN : String := "light"

/-- Home Assistant sensor domain constant. -/
def SENSOR_DOMAIN : String := "sensor"

/-- Home Assistant config-entry source constant for user-initiated entries. -/
def SOURCE_USER : String := "user"

/-- Modelled from the spec: `aliases.py` is not under `src/`; the spec and
claims name the segmented-lighting vendor constant as WLED. -/
def MANUFACTURER_WLED : String := "WLED"

/-- Modelled from the spec: `aliases.py` (the alias table contents) is not
under `src/`; the spec names one alias, rawName "Ikea" to canonicalName
"IKEA".  The table maps raw manufacturer names to canonical ones. -/
def MANUFACTURER_ALIASES : List (String × String) := [("Ikea", "IKEA")]

/-- Modelled from the spec: `const.py` is not under `src/`; the vendor
special case carries a fixed calculation-mode marker
(`CalculationStrategy.WLED`). -/
def CalculationStrategy_WLED : String := "wled"

/-- Modelled from the spec: `power_profile.py` is not under `src/`; the
eligibility filter checks the entry's domain against a fixed allow-list of
power-consuming device kinds (`DEVICE_DOMAINS.values()`). -/
def DEVICE_DOMAINS_values : List String :=
  ["light", "switch", "binary_sensor", "media_player"]

/-- Python `str(x)` on an optional string: `str(None)` is the non-empty
string "None". -/
def pyStr : Option String → String
  | none => "None"
  | some s => s

/-- Python falsiness of an optional string: `None` and `""` are falsy. -/
def pyFalsyStrOpt : Option String → Bool
  | none => true
  | some s => s.isEmpty

mutual

/-- A YAML / Python value as it occurs in the declarative sensor
configuration: a scalar string, Python `None`, a dict or a list. -/
inductive Yaml where
  | str : String → Yaml
  | pynone : Yaml
  | dict : YDict → Yaml
  | list : YList → Yaml

/-- Items of a YAML dict, in insertion order. -/
inductive YDict where
  | nil : YDict
  | cons : String → Yaml → YDict → YDict

/-- Items of a YAML list, in order. -/
inductive YList where
  | nil : YList
  | cons : Yaml → YList → YList

end

/-- Python equality test of a YAML value against a string: only a scalar
string compares equal to a string (a list or dict never equals a str). -/
def Yaml.eqStr : Yaml → String → Bool
  | .str t, s => t == s
  | _, _ => false

/-- First value stored under a key of a YAML dict (Python `dict.get`). -/
def dictGet (kvs : YDict) (key : String) : Option Yaml :=
  match kvs with
  | .nil => none
  | .cons k v rest => if k == key then some v else dictGet rest key

/-- Registry entry as read by `discovery.py` from the entity registry:
identifier, stable unique key, domain, enabled flag, category, owning
device reference and display name. -/
structure RegistryEntry where
  entity_id : String
  unique_id : String
  domain : String
  disabled : Bool
  entity_category : Option EntityCategory
  device_id : Option String
  original_name : Option String
deriving DecidableEq

/-- Device registry record: manufacturer and model strings, either of
which may be missing (`None`). -/
structure DeviceEntry where
  manufacturer : Option String
  model : Option String
deriving DecidableEq

/-- ModelInfo from `power_profile/library.py`: the resolved identity.  The
manufacturer field receives whatever the device registry held (possibly
`None`); the model field is always a string after `str()` coercion. -/
structure ModelInfo where
  manufacturer : Option String
  model : String
deriving DecidableEq

/-- Modelled from the spec: `common.py` is not under `src/`; a
SourceEntity is a normalized wrapper around a registry entry carrying the
entity id, a stable unique key and the entity's domain. -/
structure SourceEntity where
  entity_id : String
  unique_id : String
  domain : String
deriving DecidableEq

/-- Modelled from the spec: `power_profile.py` is not under `src/`; a
profile carries its manufacturer/model, a flag for whether additional user
configuration is required, and the set of entity kinds it supports. -/
structure PowerProfile where
  manufacturer : String
  model : String
  is_additional_configuration_required : Bool
  supported_domains : List String
deriving DecidableEq

/-- Modelled from the spec: `Profile.supportsKind(kind)` — the profile
supports a source entity iff the entity's domain is in its supported set. -/
def PowerProfile.is_entity_domain_supported (pp : PowerProfile) (se : SourceEntity) : Bool :=
  pp.supported_domains.contains se.domain

/-- Configuration entry of the host's config-entry store, restricted to
the fields `discovery.py` reads: domain, unique id, creation source and
the stored `entity_id` datum. -/
structure ConfigEntry where
  domain : String
  unique_id : Option String
  source : String
  data_entity_id : Option Yaml

/-- Declarative Home Assistant configuration, restricted to the part
`discovery.py` reads: the optional `sensor:` platform list. -/
structure HaConfig where
  sensor : Option (List Yaml)

/-- Failure raised by a collaborator during the sweep: the library's
ModelNotSupported signal, or any other exception. -/
inductive PyErr where
  | modelNotSupported
  | other : String → PyErr
deriving DecidableEq

/-- Environment of one sweep: the registries, the configuration-entry
store, the declarative configuration and the profile library, plus the
inputs on which the fallible collaborators (`create_source_entity`,
`get_power_profile`) raise an error other than ModelNotSupported. -/
structure Env where
  entities : List RegistryEntry
  devices : List (String × DeviceEntry)
  configEntries : List ConfigEntry
  ha_config : HaConfig
  library : List ((Option String × String) × PowerProfile)
  createSourceEntityFails : List String
  libraryFailures : List (Option String × String)

/-- Embedding of `has_manufacturer_and_model_information`: the owning
device must exist and both `str(manufacturer)` and `str(model)` must be
non-empty (note `str(None) = "None"` is non-empty). -/
def has_manufacturer_and_model_information (env : Env) (entity_entry : RegistryEntry) : Bool :=
  match entity_entry.device_id.bind (fun did => env.devices.lookup did) with
  | none => false
  | some device_entry =>
    if (pyStr device_entry.manufacturer).length == 0
        || (pyStr device_entry.model).length == 0 then false
    else true

/-- Character-wise body of Python `str.replace("/", "#slash#")`: the
pattern is the single character `/`, so occurrences never overlap. -/
def replaceSlashChars : List Char → List Char
  | [] => []
  | c :: rest => (if c = '/' then "#slash#".data else [c]) ++ replaceSlashChars rest

/-- Embedding of `model_id = str(model_id).replace("/", "#slash#")`. -/
def replaceSlash (s : String) : String :=
  ⟨replaceSlashChars s.data⟩

/-- Embedding of `MANUFACTURER_ALIASES.get(manufacturer)`: a dict lookup
keyed by a string; a `None` manufacturer is not a key of the table. -/
def aliasGet (m : Option String) : Option String :=
  match m with
  | none => none
  | some s => MANUFACTURER_ALIASES.lookup s

/-- Embedding of the alias substitution
`if MANUFACTURER_ALIASES.get(m): m = MANUFACTURER_ALIASES.get(m)` — the
substitution happens only when the looked-up value is truthy (a non-empty
string). -/
def aliasSubstitute (m : Option String) : Option String :=
  match aliasGet m with
  | some a => if a.isEmpty then m else some a
  | none => m

/-- Embedding of `autodiscover_model`: resolve manufacturer and model from
the device registry, substitute the manufacturer through the alias table,
and sanitize the model string.  The inner `none` branch is unreachable
because `has_manufacturer_and_model_information` already found the
device. -/
def autodiscover_model (env : Env) (entity_entry : Option RegistryEntry) : Option ModelInfo :=
  match entity_entry with
  | none => none
  | some e =>
    if !(has_manufacturer_and_model_information env e) then none
    else
      match e.device_id.bind (fun did => env.devices.lookup did) with
      | none => none
      | some device_entry =>
        let manufacturer := aliasSubstitute device_entry.manufacturer
        let model_id := replaceSlash (pyStr device_entry.model)
        some ⟨manufacturer, model_id⟩

mutual

/-- Embedding of `DiscoveryManager._find_entity_ids_in_yaml_config`: walk
the items of a dict; the value of a key literally equal to "entity_id" is
collected as-is (without descending into it); any other dict value is
searched recursively; of a list value only the dict items are searched
recursively. -/
def find_entity_ids_in_yaml_config : YDict → List Yaml
  | .nil => []
  | .cons key value rest =>
    (if key == "entity_id" then [value]
     else
       match value with
       | Yaml.dict kvs => find_entity_ids_in_yaml_config kvs
       | Yaml.list xs => find_in_yaml_list xs
       | _ => [])
    ++ find_entity_ids_in_yaml_config rest

/-- Helper for the list branch of the scan: only items that are dicts are
descended into; scalars and nested lists are skipped. -/
def find_in_yaml_list : YList → List Yaml
  | .nil => []
  | .cons (Yaml.dict kvs) rest => find_entity_ids_in_yaml_config kvs ++ find_in_yaml_list rest
  | .cons _ rest => find_in_yaml_list rest

end

/-- Platform block selection and per-block scan of
`_load_manually_configured_entities`: an item of the sensor configuration
contributes its scan results iff it is a dict whose "platform" value
equals the integration domain. -/
def powercalcBlockIds (item : Yaml) : List Yaml :=
  match item with
  | Yaml.dict kvs =>
    match dictGet kvs "platform" with
    | some (Yaml.str s) => if s == DOMAIN then find_entity_ids_in_yaml_config kvs else []
    | _ => []
  | _ => []

/-- Embedding of `DiscoveryManager._load_manually_configured_entities`:
entity-id values scanned out of the powercalc platform blocks of the YAML
sensor configuration, followed by the stored `entity_id` datum of every
user-initiated configuration entry of this domain (`data.get` yields
Python `None` when the datum is absent). -/
def load_manually_configured_entities (env : Env) : List Yaml :=
  (match env.ha_config.sensor with
   | none => []
   | some sensor_config => (sensor_config.map powercalcBlockIds).flatten)
  ++
  ((env.configEntries.filter (fun ce => ce.domain == DOMAIN && ce.source == SOURCE_USER)).map
    (fun ce => ce.data_entity_id.getD Yaml.pynone))

/-- Mutable state of a `DiscoveryManager` instance: the lazily built
manual-configuration cache (`None` until first use), plus an observation
counter of how many times `_load_manually_configured_entities` ran. -/
structure DMState where
  manually_configured_entities : Option (List Yaml)
  load_count : Nat

/-- Fresh manager state as set up by `DiscoveryManager.__init__`. -/
def dmInit : DMState :=
  ⟨none, 0⟩

/-- Python falsiness of the cache field: `None` and the empty list are
falsy, so `if not self.manually_configured_entities:` rebuilds on both. -/
def pyFalsyList : Option (List Yaml) → Bool
  | none => true
  | some l => l.isEmpty

/-- Python membership `entity_id in entities` over the heterogeneous
manual-configuration list: any element equal (as a Python value) to the
string. -/
def pyListContainsStr (l : List Yaml) (s : String) : Bool :=
  l.any (fun v => v.eqStr s)

/-- Embedding of `DiscoveryManager._is_user_configured`: rebuild the cache
when it is falsy (unset or empty), then test membership of the entity id. -/
def is_user_configured (env : Env) (st : DMState) (entity_id : String) : Bool × DMState :=
  let st' :=
    if pyFalsyList st.manually_configured_entities then
      { manually_configured_entities := some (load_manually_configured_entities env),
        load_count := st.load_count + 1 }
    else st
  (pyListContainsStr (st'.manually_configured_entities.getD []) entity_id, st')

/-- Embedding of `DiscoveryManager.should_process_entity`: enabled, domain
in the allow-list, category neither config nor diagnostic, and not
manually configured. -/
def should_process_entity (env : Env) (st : DMState) (e : RegistryEntry) : Bool × DMState :=
  if e.disabled then (false, st)
  else if !(DEVICE_DOMAINS_values.contains e.domain) then (false, st)
  else if e.entity_category == some EntityCategory.config
       || e.entity_category == some EntityCategory.diagnostic then (false, st)
  else
    let r := is_user_configured env st e.entity_id
    if r.1 then (false, r.2) else (true, r.2)

/-- Modelled from the spec: `common.py` is not under `src/`;
`create_source_entity` wraps the registry entry into a SourceEntity and is
a suspension point that may fail, which the environment records per
entity id. -/
def create_source_entity (env : Env) (e : RegistryEntry) : Except PyErr SourceEntity :=
  if env.createSourceEntityFails.contains e.entity_id then
    .error (.other "create_source_entity failure")
  else
    .ok ⟨e.entity_id, e.unique_id, e.domain⟩

/-- Modelled from the spec: `power_profile/factory.py` is not under
`src/`; the library lookup returns the profile stored for the identity,
raises ModelNotSupported when the library has none, and may raise another
error, which the environment records per identity. -/
def get_power_profile (env : Env) (model_info : ModelInfo) : Except PyErr PowerProfile :=
  if env.libraryFailures.contains (model_info.manufacturer, model_info.model) then
    .error (.other "library failure")
  else
    match env.library.lookup (model_info.manufacturer, model_info.model) with
    | some pp => .ok pp
    | none => .error .modelNotSupported

/-- Extra discovery data passed by the WLED special case: the
calculation-mode marker and the manufacturer/model pair. -/
structure ExtraData where
  mode : String
  manufacturer : Option String
  model : String
deriving DecidableEq

/-- Discovery-flow payload built by `_init_entity_discovery`: entity id
and source entity always; profile, manufacturer and model when a library
profile was found; mode/manufacturer/model when extra data was passed. -/
structure DiscoveryData where
  entity_id : String
  source_entity : SourceEntity
  power_profile : Option PowerProfile
  manufacturer : Option String
  model : Option String
  mode : Option String
deriving DecidableEq

/-- Legacy platform-load payload scheduled for a library profile that
needs no additional configuration. -/
structure LegacyData where
  entity_id : String
  source_entity : SourceEntity
  power_profile : PowerProfile
deriving DecidableEq

/-- One dispatch of the sweep: a discovery-flow record or a legacy
platform-load payload. -/
inductive Emission where
  | flow : DiscoveryData → Emission
  | legacy : LegacyData → Emission
deriving DecidableEq

/-- Embedding of `hass.config_entries.async_entries(domain)`. -/
def async_entries (env : Env) (domain : String) : List ConfigEntry :=
  env.configEntries.filter (fun ce => ce.domain == domain)

/-- Embedding of `DiscoveryManager._init_entity_discovery`: skip when a
configuration entry of this domain already carries the source entity's
unique id or its "pc_"-prefixed variant; otherwise dispatch the discovery
flow, and additionally the legacy platform-load payload when a profile was
passed that requires no additional configuration. -/
def init_entity_discovery (env : Env) (source_entity : SourceEntity)
    (power_profile : Option PowerProfile) (extra_discovery_data : Option ExtraData) :
    List Emission :=
  let existing_entries := (async_entries env DOMAIN).filter (fun ce =>
    ce.unique_id == some source_entity.unique_id
    || ce.unique_id == some ("pc_" ++ source_entity.unique_id))
  if !existing_entries.isEmpty then []
  else
    let base : DiscoveryData :=
      { entity_id := source_entity.entity_id,
        source_entity := source_entity,
        power_profile := power_profile,
        manufacturer := power_profile.map (fun pp => pp.manufacturer),
        model := power_profile.map (fun pp => pp.model),
        mode := none }
    let discovery_data :=
      match extra_discovery_data with
      | some ex =>
        { base with
          mode := some ex.mode,
          manufacturer := ex.manufacturer,
          model := some ex.model }
      | none => base
    Emission.flow discovery_data ::
      (match power_profile with
       | some pp =>
         if !pp.is_additional_configuration_required then
           [Emission.legacy ⟨source_entity.entity_id, source_entity, pp⟩]
         else []
       | none => [])

/-- ASCII case folding of one character to its code (both search patterns
of the WLED name check are ASCII, so `re.IGNORECASE` amounts to ASCII
folding here). -/
def lowerCode (c : Char) : Nat :=
  if 65 ≤ c.toNat ∧ c.toNat ≤ 90 then c.toNat + 32 else c.toNat

/-- Substring containment over folded character codes. -/
def containsSub (pat : List Nat) : List Nat → Bool
  | [] => pat.isEmpty
  | c :: rest => pat.isPrefixOf (c :: rest) || containsSub pat rest

/-- Embedding of `re.search("master|segment", str(name), re.IGNORECASE)`:
case-insensitive substring containment of "master" or "segment" in the
string coercion of the display name. -/
def nameMatchesMasterOrSegment (name : Option String) : Bool :=
  let s := (pyStr name).data.map lowerCode
  containsSub ("master".data.map lowerCode) s
    || containsSub ("segment".data.map lowerCode) s

/-- Body of the `start_discovery` loop after the eligibility filter: the
state-free part of processing one registry entry.  Returns the emissions
dispatched for the entry and the error, if any, that escapes the loop
body (only ModelNotSupported from the library lookup is caught). -/
def resolve_and_dispatch (env : Env) (e : RegistryEntry) : List Emission × Option PyErr :=
  match autodiscover_model env (some e) with
  | none => ([], none)
  | some model_info =>
    if pyFalsyStrOpt model_info.manufacturer || model_info.model == "" then ([], none)
    else
      match create_source_entity env e with
      | .error err => ([], some err)
      | .ok source_entity =>
        if model_info.manufacturer == some MANUFACTURER_WLED
            && e.domain == LIGHT_DOMAIN
            && !(nameMatchesMasterOrSegment e.original_name) then
          (init_entity_discovery env source_entity none
            (some ⟨CalculationStrategy_WLED, model_info.manufacturer, model_info.model⟩), none)
        else
          match get_power_profile env model_info with
          | .error .modelNotSupported => ([], none)
          | .error err => ([], some err)
          | .ok power_profile =>
            if !(power_profile.is_entity_domain_supported source_entity) then ([], none)
            else (init_entity_discovery env source_entity (some power_profile) none, none)

/-- Outcome of processing one registry entry: dispatched emissions, an
uncaught error if one was raised, and the manager state afterwards. -/
structure StepResult where
  emissions : List Emission
  error : Option PyErr
  state : DMState

/-- One iteration of the `start_discovery` loop: eligibility filter, then
identity resolution, matching and dispatch. -/
def process_entity (env : Env) (st : DMState) (e : RegistryEntry) : StepResult :=
  let p := should_process_entity env st e
  if p.1 then
    let r := resolve_and_dispatch env e
    ⟨r.1, r.2, p.2⟩
  else ⟨[], none, p.2⟩

/-- Outcome of a sweep: all dispatched emissions in order, the first
uncaught error (which aborts the remaining entries), and the final
manager state. -/
structure SweepResult where
  emissions : List Emission
  error : Option PyErr
  state : DMState

/-- Iteration of `start_discovery` over the registry snapshot: an uncaught
error of one iteration propagates and aborts the remaining entries. -/
def sweep_entities (env : Env) : DMState → List RegistryEntry → SweepResult
  | st, [] => ⟨[], none, st⟩
  | st, e :: rest =>
    let r := process_entity env st e
    match r.error with
    | some err => ⟨r.emissions, some err, r.state⟩
    | none =>
      let r2 := sweep_entities env r.state rest
      ⟨r.emissions ++ r2.emissions, r2.error, r2.state⟩

/-- Embedding of `DiscoveryManager.start_discovery`: process the snapshot
of all registry entries. -/
def start_discovery (env : Env) (st : DMState) : SweepResult :=
  sweep_entities env st env.entities

/-- Discovery-flow records among a list of emissions (the legacy
platform-load payloads are not discovery records). -/
def flowRecords : List Emission → List DiscoveryData
  | [] => []
  | .flow d :: rest => d :: flowRecords rest
  | .legacy _ :: rest => flowRecords rest

/-- Discovery-flow records carrying a given entity id. -/
def flowRecordsFor (eid : String) (ems : List Emission) : List DiscoveryData :=
  (flowRecords ems).filter (fun d => d.entity_id == eid)

/-- Scalar (non-container) YAML value. -/
def isScalar : Yaml → Bool
  | .str _ => true
  | .pynone => true
  | _ => false

mutual

/-- Specification-side occurrence collector: every value stored under an
"entity_id" key anywhere in the structure, at any depth, across dict and
list branches, in depth-first order. -/
def yamlOccs : Yaml → List Yaml
  | .str _ => []
  | .pynone => []
  | .dict kvs => dictOccs kvs
  | .list xs => listOccs xs

/-- Occurrences inside the items of a dict. -/
def dictOccs : YDict → List Yaml
  | .nil => []
  | .cons k v rest =>
    (if k == "entity_id" then [v] else []) ++ yamlOccs v ++ dictOccs rest

/-- Occurrences inside the items of a list. -/
def listOccs : YList → List Yaml
  | .nil => []
  | .cons x rest => yamlOccs x ++ listOccs rest

end

mutual

/-- Shape restriction under which the code's scan is complete: every list
item is a dict, and the value of every "entity_id" key is a scalar. -/
def wellShapedVal : Yaml → Bool
  | .str _ => true
  | .pynone => true
  | .dict kvs => wellShapedDict kvs
  | .list xs => wellShapedList xs

/-- Shape restriction on dict items. -/
def wellShapedDict : YDict → Bool
  | .nil => true
  | .cons k v rest =>
    (if k == "entity_id" then isScalar v else wellShapedVal v) && wellShapedDict rest

/-- Shape restriction on list items: only dicts. -/
def wellShapedList : YList → Bool
  | .nil => true
  | .cons (Yaml.dict kvs) rest => wellShapedDict kvs && wellShapedList rest
  | .cons _ _ => false

end

/-- Scalar elements of a list-valued entity-id entry. -/
def flattenIdsList : YList → List String
  | .nil => []
  | .cons (Yaml.str s) rest => s :: flattenIdsList rest
  | .cons _ rest => flattenIdsList rest

/-- Identifiers denoted by one entity-id value in the sense of claim C3:
the scalar itself, or — when the value is a list of identifiers — each
scalar element of the list. -/
def flattenIds : Yaml → List String
  | .str s => [s]
  | .list xs => flattenIdsList xs
  | _ => []

/-- Claim C3's notion of a manually configured identifier, following the
claim's words: the identifier appears under an "entity_id" key inside a
powercalc platform block of the declarative sensor configuration
(including as an element of a list-valued "entity_id"), or it is stored
in a user-initiated configuration entry of this domain. -/
def claimManualIds (env : Env) : List String :=
  (match env.ha_config.sensor with
   | none => []
   | some sensor_config =>
     (sensor_config.map (fun item =>
       match item with
       | Yaml.dict kvs =>
         match dictGet kvs "platform" with
         | some (Yaml.str s) =>
           if s == DOMAIN then (dictOccs kvs).map flattenIds else []
         | _ => []
       | _ => [])).flatten.flatten)
  ++
  ((env.configEntries.filter (fun ce => ce.domain == DOMAIN && ce.source == SOURCE_USER)).map
    (fun ce =>
      match ce.data_entity_id with
      | some (Yaml.str s) => [s]
      | _ => [])).flatten

/-- Invariant claimed by C9 for a constructed identity: both fields are
non-empty strings. -/
def modelInfoFieldsNonEmpty (mi : ModelInfo) : Prop :=
  (∃ m, mi.manufacturer = some m ∧ m ≠ "") ∧ mi.model ≠ ""

/-- A vendor-special discovery record: a flow dispatch carrying the WLED
calculation-mode marker. -/
def isWledFlow : Emission → Bool
  | .flow d => d.mode == some CalculationStrategy_WLED
  | .legacy _ => false

/-- Cache states reachable in a fixed environment: the cache is unset or
holds exactly the manual-configuration index of that environment. -/
def GoodState (env : Env) (st : DMState) : Prop :=
  st.manually_configured_entities = none ∨
  st.manually_configured_entities = some (load_manually_configured_entities env)

/-- State-free value of the eligibility filter in a fixed environment. -/
def shouldProcessB (env : Env) (e : RegistryEntry) : Bool :=
  if e.disabled then false
  else if !(DEVICE_DOMAINS_values.contains e.domain) then false
  else if e.entity_category == some EntityCategory.config
       || e.entity_category == some EntityCategory.diagnostic then false
  else !(pyListContainsStr (load_manually_configured_entities env) e.entity_id)

/-- State-free value of the emissions of a sweep in a fixed environment. -/
def sweepEmissionsPure (env : Env) : List RegistryEntry → List Emission
  | [] => []
  | e :: rest =>
    if shouldProcessB env e then
      match (resolve_and_dispatch env e).2 with
      | some _ => (resolve_and_dispatch env e).1
      | none => (resolve_and_dispatch env e).1 ++ sweepEmissionsPure env rest
    else sweepEmissionsPure env rest

/-- State-free value of the propagated error of a sweep in a fixed
environment. -/
def sweepErrorPure (env : Env) : List RegistryEntry → Option PyErr
  | [] => none
  | e :: rest =>
    if shouldProcessB env e then
      match (resolve_and_dispatch env e).2 with
      | some err => some err
      | none => sweepErrorPure env rest
    else sweepErrorPure env rest

/-- Library profile used by the C1 environment. -/
def profC1 : PowerProfile :=
  ⟨"Signify", "LCT001", false, ["light"]⟩

/-- Enabled light entity of the C1 environment. -/
def entC1 : RegistryEntry :=
  ⟨"light.test", "uid1", "light", false, none, some "dev1", some "Test Light"⟩

/-- One matching, not-yet-configured light entity: the library knows its
device and no configuration entry exists. -/
def envC1 : Env :=
  ⟨[entC1], [("dev1", ⟨some "Signify", some "LCT001"⟩)], [], ⟨none⟩,
   [((some "Signify", "LCT001"), profC1)], [], []⟩

/-- Source entity of the C2 witness. -/
def seC2 : SourceEntity :=
  ⟨"light.c2", "uidC2", "light"⟩

/-- Environment whose configuration-entry store already holds an entry
with the C2 source entity's unique id. -/
def envC2 : Env :=
  ⟨[], [], [⟨"powercalc", some "uidC2", "integration_discovery", none⟩], ⟨none⟩, [], [], []⟩

/-- Powercalc platform block whose "entity_id" value is a list holding
the identifier "light.a". -/
def yamlBlockC3 : YDict :=
  .cons "platform" (Yaml.str "powercalc")
    (.cons "entity_id" (Yaml.list (.cons (Yaml.str "light.a") .nil)) .nil)

/-- Registry entry for the identifier listed in `yamlBlockC3`. -/
def entC3 : RegistryEntry :=
  ⟨"light.a", "uidC3", "light", false, none, some "devC3", some "Lamp A"⟩

/-- Library profile used by the C3 environments. -/
def profC3 : PowerProfile :=
  ⟨"Acme", "L1", false, ["light"]⟩

/-- Environment where "light.a" is manually configured through a
list-valued "entity_id" and would match the library. -/
def envC3 : Env :=
  ⟨[entC3], [("devC3", ⟨some "Acme", some "L1"⟩)], [], ⟨some [Yaml.dict yamlBlockC3]⟩,
   [((some "Acme", "L1"), profC3)], [], []⟩

/-- Powercalc platform block with a scalar "entity_id" value. -/
def yamlBlockC3w : YDict :=
  .cons "platform" (Yaml.str "powercalc") (.cons "entity_id" (Yaml.str "light.b") .nil)

/-- Registry entry for the identifier of `yamlBlockC3w`. -/
def entC3w : RegistryEntry :=
  ⟨"light.b", "uidC3w", "light", false, none, some "devC3w", some "Lamp B"⟩

/-- Environment where "light.b" is manually configured with a scalar
"entity_id" value and would match the library. -/
def envC3w : Env :=
  ⟨[entC3w], [("devC3w", ⟨some "Acme", some "L1"⟩)], [], ⟨some [Yaml.dict yamlBlockC3w]⟩,
   [((some "Acme", "L1"), profC3)], [], []⟩

/-- Nested structure with one "entity_id" occurrence inside a dict inside
a list inside a list. -/
def yamlC4 : YDict :=
  .cons "a"
    (Yaml.list (.cons
      (Yaml.list (.cons (Yaml.dict (.cons "entity_id" (Yaml.str "x") .nil)) .nil))
      .nil))
    .nil

/-- Well-shaped nested structure with three "entity_id" occurrences:
under a dict value, under a dict inside a list, and at top level. -/
def yamlC4w : YDict :=
  .cons "a" (Yaml.dict (.cons "entity_id" (Yaml.str "light.x") .nil))
    (.cons "b" (Yaml.list (.cons (Yaml.dict (.cons "entity_id" (Yaml.str "light.y") .nil)) .nil))
      (.cons "entity_id" (Yaml.str "light.z") .nil))

/-- Two eligible light entities and an empty manual configuration: every
eligibility check sees a falsy (empty) cache. -/
def envC5a : Env :=
  ⟨[⟨"light.p", "u5a1", "light", false, none, none, none⟩,
    ⟨"light.q", "u5a2", "light", false, none, none, none⟩],
   [], [], ⟨none⟩, [], [], []⟩

/-- One eligible light entity and one user-initiated configuration entry:
the manual-configuration index is non-empty. -/
def envC5b : Env :=
  ⟨[⟨"light.p", "u5b1", "light", false, none, none, none⟩],
   [], [⟨"powercalc", some "x", "user", some (Yaml.str "light.z")⟩], ⟨none⟩, [], [], []⟩

/-- Library profile used by the C6 environments. -/
def profC6 : PowerProfile :=
  ⟨"Acme", "M2", false, ["light"]⟩

/-- Entity whose source-entity creation raises. -/
def entC6bad : RegistryEntry :=
  ⟨"light.bad", "u6b", "light", false, none, some "dev6b", some "Bad"⟩

/-- Entity that matches the library. -/
def entC6good : RegistryEntry :=
  ⟨"light.good", "u6g", "light", false, none, some "dev6g", some "Good"⟩

/-- Environment where the first entity's source-entity creation raises an
error other than ModelNotSupported and the second entity would match. -/
def envC6 : Env :=
  ⟨[entC6bad, entC6good],
   [("dev6b", ⟨some "Acme", some "M1"⟩), ("dev6g", ⟨some "Acme", some "M2"⟩)],
   [], ⟨none⟩, [((some "Acme", "M2"), profC6)], ["light.bad"], []⟩

/-- The C6 environment without the failing entity. -/
def envC6two : Env :=
  ⟨[entC6good], [("dev6g", ⟨some "Acme", some "M2"⟩)],
   [], ⟨none⟩, [((some "Acme", "M2"), profC6)], [], []⟩

/-- Environment whose only entity is unknown to the library: the lookup
signals ModelNotSupported. -/
def envC6w : Env :=
  ⟨[⟨"light.unknown", "u6w", "light", false, none, some "dev6w", some "Unknown"⟩],
   [("dev6w", ⟨some "NoBrand", some "NoModel"⟩)], [], ⟨none⟩, [], [], []⟩

/-- WLED light entity whose display name matches neither "master" nor
"segment". -/
def entC7 : RegistryEntry :=
  ⟨"light.wled1", "u7", "light", false, none, some "dev7", some "WLED Strip"⟩

/-- Environment where the WLED entity already has a configuration entry
carrying its unique id. -/
def envC7 : Env :=
  ⟨[entC7], [("dev7", ⟨some "WLED", some "FOSS"⟩)],
   [⟨"powercalc", some "u7", "integration_discovery", none⟩], ⟨none⟩, [], [], []⟩

/-- Library profile for the WLED identity, used by the C7 witness. -/
def profC7 : PowerProfile :=
  ⟨"WLED", "FOSS", false, ["light"]⟩

/-- WLED light entity whose display name contains "Segment". -/
def entC7seg : RegistryEntry :=
  ⟨"light.wled2", "u72", "light", false, none, some "dev72", some "Light Strip Segment 1"⟩

/-- Environment with an includable WLED light and a segment sub-entity,
no existing configuration entries. -/
def envC7w : Env :=
  ⟨[entC7, entC7seg],
   [("dev7", ⟨some "WLED", some "FOSS"⟩), ("dev72", ⟨some "WLED", some "FOSS"⟩)],
   [], ⟨none⟩, [((some "WLED", "FOSS"), profC7)], [], []⟩

/-- Entity whose device has the aliased manufacturer "Ikea" and a model
string containing a path separator. -/
def entC8 : RegistryEntry :=
  ⟨"light.ikea", "u8", "light", false, none, some "dev8", some "Ikea bulb"⟩

/-- Environment for the identity-resolution example. -/
def envC8 : Env :=
  ⟨[entC8], [("dev8", ⟨some "Ikea", some "TRADFRI/bulb"⟩)], [], ⟨none⟩, [], [], []⟩

/-- Entity whose device has no manufacturer string at all. -/
def entC9 : RegistryEntry :=
  ⟨"light.x9", "u9", "light", false, none, some "dev9", none⟩

/-- Environment whose device registry holds `None` as manufacturer. -/
def envC9 : Env :=
  ⟨[entC9], [("dev9", ⟨none, some "x"⟩)], [], ⟨none⟩, [], [], []⟩

/-- Entity with a complete manufacturer/model pair, for the C9 witness. -/
def entC9w : RegistryEntry :=
  ⟨"light.x9w", "u9w", "light", false, none, some "dev9w", none⟩

/-- Environment with a complete manufacturer/model pair. -/
def envC9w : Env :=
  ⟨[entC9w], [("dev9w", ⟨some "Signify", some "LCT001"⟩)], [], ⟨none⟩, [], [], []⟩

/-- Entity whose device has manufacturer `None`, for C10. -/
def entC10 : RegistryEntry :=
  ⟨"light.x10", "u10", "light", false, none, some "dev10", none⟩

/-- Environment whose device registry holds `None` as manufacturer: the
pre-check accepts it, the orchestrator's secondary check filters it. -/
def envC10 : Env :=
  ⟨[entC10], [("dev10", ⟨none, some "x"⟩)], [], ⟨none⟩, [], [], []⟩

/-- A fresh manager state is a good cache state for every environment. -/
lemma goodState_dmInit (env : Env) : GoodState env dmInit :=
  Or.inl rfl

/-- In a good cache state the membership answer of `_is_user_configured`
is the membership in the freshly built index. -/
lemma is_user_configured_fst (env : Env) (st : DMState) (eid : String)
    (h : GoodState env st) :
    (is_user_configured env st eid).1
      = pyListContainsStr (load_manually_configured_entities env) eid := by
  rcases h with h | h
  · simp [is_user_configured, pyFalsyList, h]
  · by_cases hL : (load_manually_configured_entities env).isEmpty
    · simp [is_user_configured, pyFalsyList, h, hL]
    · simp [is_user_configured, pyFalsyList, h, hL]

/-- `_is_user_configured` preserves good cache states. -/
lemma is_user_configured_good (env : Env) (st : DMState) (eid : String)
    (h : GoodState env st) :
    GoodState env (is_user_configured env st eid).2 := by
  by_cases hf : pyFalsyList st.manually_configured_entities
  · simp [is_user_configured, hf, GoodState]
  · simpa [is_user_configured, hf] using h

/-- In a good cache state the eligibility filter computes its state-free
value. -/
lemma should_process_fst (env : Env) (st : DMState) (e : RegistryEntry)
    (h : GoodState env st) :
    (should_process_entity env st e).1 = shouldProcessB env e := by
  unfold should_process_entity shouldProcessB
  by_cases h1 : e.disabled
  · simp [h1]
  · by_cases h2 : e.domain ∈ DEVICE_DOMAINS_values
    · by_cases h3 : (e.entity_category == some EntityCategory.config
          || e.entity_category == some EntityCategory.diagnostic) = true
      · simp [h1, h2, h3]
      · have h4 := is_user_configured_fst env st e.entity_id h
        by_cases h5 : (is_user_configured env st e.entity_id).1
        · simp [h1, h2, h3, h5, ← h4]
        · simp [h1, h2, h3, h5, ← h4]
    · simp [h1, h2]

/-- The eligibility filter preserves good cache states. -/
lemma should_process_good (env : Env) (st : DMState) (e : RegistryEntry)
    (h : GoodState env st) :
    GoodState env (should_process_entity env st e).2 := by
  unfold should_process_entity
  by_cases h1 : e.disabled
  · simpa [h1] using h
  · by_cases h2 : e.domain ∈ DEVICE_DOMAINS_values
    · by_cases h3 : (e.entity_category == some EntityCategory.config
          || e.entity_category == some EntityCategory.diagnostic) = true
      · simpa [h1, h2, h3] using h
      · have h4 := is_user_configured_good env st e.entity_id h
        by_cases h5 : (is_user_configured env st e.entity_id).1
        · simpa [h1, h2, h3, h5] using h4
        · simpa [h1, h2, h3, h5] using h4
    · simpa [h1, h2] using h

/-- In a good cache state one loop iteration dispatches its state-free
emissions. -/
lemma process_entity_emissions (env : Env) (st : DMState) (e : RegistryEntry)
    (h : GoodState env st) :
    (process_entity env st e).emissions
      = if shouldProcessB env e then (resolve_and_dispatch env e).1 else [] := by
  unfold process_entity
  rw [← should_process_fst env st e h]
  by_cases hp : (should_process_entity env st e).1
  · simp [hp]
  · simp [hp]

/-- In a good cache state one loop iteration raises its state-free
error. -/
lemma process_entity_error (env : Env) (st : DMState) (e : RegistryEntry)
    (h : GoodState env st) :
    (process_entity env st e).error
      = if shouldProcessB env e then (resolve_and_dispatch env e).2 else none := by
  unfold process_entity
  rw [← should_process_fst env st e h]
  by_cases hp : (should_process_entity env st e).1
  · simp [hp]
  · simp [hp]

/-- One loop iteration preserves good cache states. -/
lemma process_entity_good (env : Env) (st : DMState) (e : RegistryEntry)
    (h : GoodState env st) :
    GoodState env (process_entity env st e).state := by
  unfold process_entity
  have hg := should_process_good env st e h
  by_cases hp : (should_process_entity env st e).1
  · simpa [hp] using hg
  · simpa [hp] using hg

/-- In a good cache state a sweep computes its state-free emissions and
error, and ends in a good cache state. -/
lemma sweep_entities_pure (env : Env) (es : List RegistryEntry) :
    ∀ st : DMState, GoodState env st →
      (sweep_entities env st es).emissions = sweepEmissionsPure env es
      ∧ (sweep_entities env st es).error = sweepErrorPure env es
      ∧ GoodState env (sweep_entities env st es).state := by
  induction es with
  | nil => exact fun st h => ⟨rfl, rfl, h⟩
  | cons e rest ih =>
    intro st h
    have he := process_entity_emissions env st e h
    have herr := process_entity_error env st e h
    have hg := process_entity_good env st e h
    unfold sweep_entities sweepEmissionsPure sweepErrorPure
    by_cases hsp : shouldProcessB env e
    · rw [hsp] at he herr
      simp only [if_true] at he herr
      cases hre : (resolve_and_dispatch env e).2 with
      | some err =>
        rw [hre] at herr
        simp [herr, he, hsp, hre, hg]
      | none =>
        rw [hre] at herr
        obtain ⟨ih1, ih2, ih3⟩ := ih (process_entity env st e).state hg
        simp [herr, he, hsp, hre, ih1, ih2, ih3]
    · simp only [if_neg hsp] at he herr
      obtain ⟨ih1, ih2, ih3⟩ := ih (process_entity env st e).state hg
      simp [herr, he, hsp, ih1, ih2, ih3]

/-- A membership check leaves a non-empty cache untouched. -/
lemma is_user_configured_const (env : Env) (st : DMState) (eid : String)
    (l : List Yaml) (hc : st.manually_configured_entities = some l)
    (hne : l.isEmpty = false) :
    (is_user_configured env st eid).2 = st := by
  simp [is_user_configured, pyFalsyList, hc, hne]

/-- The eligibility filter leaves a non-empty cache untouched. -/
lemma should_process_const (env : Env) (st : DMState) (e : RegistryEntry)
    (l : List Yaml) (hc : st.manually_configured_entities = some l)
    (hne : l.isEmpty = false) :
    (should_process_entity env st e).2 = st := by
  have h4 := is_user_configured_const env st e.entity_id l hc hne
  unfold should_process_entity
  by_cases h1 : e.disabled
  · simp [h1]
  · by_cases h2 : e.domain ∈ DEVICE_DOMAINS_values
    · by_cases h3 : (e.entity_category == some EntityCategory.config
          || e.entity_category == some EntityCategory.diagnostic) = true
      · simp [h1, h2, h3]
      · by_cases h5 : (is_user_configured env st e.entity_id).1
        · simp [h1, h2, h3, h5, h4]
        · simp [h1, h2, h3, h5, h4]
    · simp [h1, h2]

/-- One loop iteration leaves a non-empty cache untouched. -/
lemma process_entity_const (env : Env) (st : DMState) (e : RegistryEntry)
    (l : List Yaml) (hc : st.manually_configured_entities = some l)
    (hne : l.isEmpty = false) :
    (process_entity env st e).state = st := by
  have hs := should_process_const env st e l hc hne
  unfold process_entity
  by_cases hp : (should_process_entity env st e).1
  · simp [hp, hs]
  · simp [hp, hs]

/-- A whole sweep leaves a non-empty cache untouched. -/
lemma sweep_entities_const (env : Env) (es : List RegistryEntry) :
    ∀ st : DMState, ∀ l : List Yaml, st.manually_configured_entities = some l →
      l.isEmpty = false → (sweep_entities env st es).state = st := by
  induction es with
  | nil => exact fun st l hc hne => rfl
  | cons e rest ih =>
    intro st l hc hne
    have hp := process_entity_const env st e l hc hne
    unfold sweep_entities
    cases herr : (process_entity env st e).error with
    | some err => simpa [herr] using hp
    | none =>
      have := ih (process_entity env st e).state l (by rw [hp]; exact hc) hne
      simpa [herr] using this.trans hp

/-- Non-nil lists are not `isEmpty`. -/
lemma isEmpty_false_of_ne_nil {α : Type} {l : List α} (h : l ≠ []) :
    l.isEmpty = false := by
  cases l with
  | nil => exact absurd rfl h
  | cons a t => rfl

/-- Build states reachable from a fresh manager in an environment with a
non-empty manual-configuration index: unset with zero builds, or freshly
built once. -/
def BuildInv (env : Env) (st : DMState) : Prop :=
  st = dmInit ∨ st = ⟨some (load_manually_configured_entities env), 1⟩

/-- A membership check from a fresh manager builds the index once. -/
lemma is_user_configured_build (env : Env) (eid : String) :
    (is_user_configured env dmInit eid).2
      = ⟨some (load_manually_configured_entities env), 1⟩ := by
  simp [is_user_configured, dmInit, pyFalsyList]

/-- One loop iteration preserves the build invariant when the index is
non-empty. -/
lemma process_entity_build (env : Env) (st : DMState) (e : RegistryEntry)
    (hne : (load_manually_configured_entities env).isEmpty = false)
    (h : BuildInv env st) :
    BuildInv env (process_entity env st e).state := by
  rcases h with h | h
  · subst h
    unfold process_entity should_process_entity
    by_cases h1 : e.disabled
    · exact Or.inl (by simp [h1])
    · by_cases h2 : e.domain ∈ DEVICE_DOMAINS_values
      · by_cases h3 : (e.entity_category == some EntityCategory.config
            || e.entity_category == some EntityCategory.diagnostic) = true
        · exact Or.inl (by simp [h1, h2, h3])
        · have h4 := is_user_configured_build env e.entity_id
          by_cases h5 : (is_user_configured env dmInit e.entity_id).1
          · exact Or.inr (by simp [h1, h2, h3, h5, h4])
          · exact Or.inr (by simp [h1, h2, h3, h5, h4])
      · exact Or.inl (by simp [h1, h2])
  · subst h
    exact Or.inr (process_entity_const env _ e _ rfl hne)

/-- A sweep from a fresh manager with a non-empty index preserves the
build invariant. -/
lemma sweep_entities_build (env : Env) (es : List RegistryEntry)
    (hne : (load_manually_configured_entities env).isEmpty = false) :
    ∀ st : DMState, BuildInv env st → BuildInv env (sweep_entities env st es).state := by
  induction es with
  | nil => exact fun st h => h
  | cons e rest ih =>
    intro st h
    have hp := process_entity_build env st e hne h
    unfold sweep_entities
    cases herr : (process_entity env st e).error with
    | some err => simpa [herr] using hp
    | none => simpa [herr] using ih (process_entity env st e).state hp

/-- When the fallible collaborators only ever signal ModelNotSupported,
one loop-body run raises nothing. -/
lemma resolve_error_none (env : Env) (e : RegistryEntry)
    (h1 : env.createSourceEntityFails = []) (h2 : env.libraryFailures = []) :
    (resolve_and_dispatch env e).2 = none := by
  unfold resolve_and_dispatch create_source_entity get_power_profile
  rw [h1, h2]
  cases autodiscover_model env (some e) with
  | none => rfl
  | some mi =>
    by_cases hf : (pyFalsyStrOpt mi.manufacturer || mi.model == "") = true
    · simp [hf]
    · simp only [hf, List.contains_nil, Bool.false_eq_true, if_false, if_neg]
      by_cases hw : (mi.manufacturer == some MANUFACTURER_WLED && e.domain == LIGHT_DOMAIN
          && !nameMatchesMasterOrSegment e.original_name) = true
      · simp [hw]
      · simp only [hw]
        cases env.library.lookup (mi.manufacturer, mi.model) with
        | none => simp
        | some pp =>
          by_cases hd : pp.is_entity_domain_supported ⟨e.entity_id, e.unique_id, e.domain⟩
          · simp [hd]
          · simp [hd]

/-- Every discovery-flow record dispatched by `_init_entity_discovery`
carries the source entity's id. -/
lemma init_flow_ids (env : Env) (se : SourceEntity) (pp : Option PowerProfile)
    (ex : Option ExtraData) :
    ∀ d ∈ flowRecords (init_entity_discovery env se pp ex), d.entity_id = se.entity_id := by
  unfold init_entity_discovery
  by_cases hdup : ((async_entries env DOMAIN).filter (fun ce =>
      ce.unique_id == some se.unique_id
      || ce.unique_id == some ("pc_" ++ se.unique_id))).isEmpty
  · cases ex with
    | none =>
      cases pp with
      | none => simp [hdup, flowRecords]
      | some p =>
        by_cases ha : p.is_additional_configuration_required
        · simp [hdup, ha, flowRecords]
        · simp [hdup, ha, flowRecords]
    | some x =>
      cases pp with
      | none => simp [hdup, flowRecords]
      | some p =>
        by_cases ha : p.is_additional_configuration_required
        · simp [hdup, ha, flowRecords]
        · simp [hdup, ha, flowRecords]
  · simp [hdup, flowRecords]

/-- The source entity built for a registry entry wraps that entry. -/
lemma create_source_entity_ok (env : Env) (e : RegistryEntry) (se : SourceEntity)
    (h : create_source_entity env e = .ok se) :
    se = ⟨e.entity_id, e.unique_id, e.domain⟩ := by
  unfold create_source_entity at h
  by_cases hc : env.createSourceEntityFails.contains e.entity_id
  · rw [if_pos hc] at h
    exact absurd h (by simp)
  · rw [if_neg hc] at h
    exact (Except.ok.inj h).symm

/-- Every discovery-flow record dispatched while processing a registry
entry carries that entry's id. -/
lemma resolve_flow_ids (env : Env) (e : RegistryEntry) :
    ∀ d ∈ flowRecords (resolve_and_dispatch env e).1, d.entity_id = e.entity_id := by
  unfold resolve_and_dispatch
  cases hmi : autodiscover_model env (some e) with
  | none => intro d hd; simp [flowRecords] at hd
  | some mi =>
    dsimp only
    by_cases hf : (pyFalsyStrOpt mi.manufacturer || mi.model == "") = true
    · rw [if_pos hf]
      intro d hd
      simp [flowRecords] at hd
    · rw [if_neg hf]
      cases hcs : create_source_entity env e with
      | error err => intro d hd; simp [flowRecords] at hd
      | ok se =>
        dsimp only
        have hse := create_source_entity_ok env e se hcs
        subst hse
        by_cases hw : (mi.manufacturer == some MANUFACTURER_WLED && e.domain == LIGHT_DOMAIN
            && !nameMatchesMasterOrSegment e.original_name) = true
        · rw [if_pos hw]
          intro d hd
          exact init_flow_ids env ⟨e.entity_id, e.unique_id, e.domain⟩ none
            (some ⟨CalculationStrategy_WLED, mi.manufacturer, mi.model⟩) d hd
        · rw [if_neg hw]
          cases hgp : get_power_profile env mi with
          | error err =>
            cases err with
            | modelNotSupported => intro d hd; simp [flowRecords] at hd
            | other s => intro d hd; simp [flowRecords] at hd
          | ok pp =>
            dsimp only
            by_cases hd2 : (!(pp.is_entity_domain_supported ⟨e.entity_id, e.unique_id, e.domain⟩)) = true
            · rw [if_pos hd2]
              intro d hd
              simp [flowRecords] at hd
            · rw [if_neg hd2]
              intro d hd
              exact init_flow_ids env ⟨e.entity_id, e.unique_id, e.domain⟩ (some pp) none d hd

/-- An entry whose id the built index holds never passes the eligibility
filter. -/
lemma shouldProcessB_false_of_mem (env : Env) (e : RegistryEntry)
    (hmem : pyListContainsStr (load_manually_configured_entities env) e.entity_id = true) :
    shouldProcessB env e = false := by
  unfold shouldProcessB
  by_cases h1 : e.disabled
  · simp [h1]
  · by_cases h2 : e.domain ∈ DEVICE_DOMAINS_values
    · by_cases h3 : (e.entity_category == some EntityCategory.config
          || e.entity_category == some EntityCategory.diagnostic) = true
      · simp [h1, h2, h3]
      · simp [h1, h2, h3, hmem]
    · simp [h1, h2]

/-- `flowRecords` distributes over concatenation. -/
lemma flowRecords_append (a b : List Emission) :
    flowRecords (a ++ b) = flowRecords a ++ flowRecords b := by
  induction a with
  | nil => rfl
  | cons x rest ih =>
    cases x with
    | flow d => simp [flowRecords, ih]
    | legacy l => simp [flowRecords, ih]

/-- No discovery-flow record of a sweep carries an id the built index
holds. -/
lemma sweepEmissionsPure_no_flow_for (env : Env) (eid : String)
    (hmem : pyListContainsStr (load_manually_configured_entities env) eid = true) :
    ∀ es : List RegistryEntry,
      flowRecordsFor eid (sweepEmissionsPure env es) = [] := by
  intro es
  induction es with
  | nil => rfl
  | cons e rest ih =>
    unfold sweepEmissionsPure
    by_cases heq : e.entity_id = eid
    · have hsp : shouldProcessB env e = false :=
        shouldProcessB_false_of_mem env e (by rwa [heq])
      simpa [hsp] using ih
    · have hids := resolve_flow_ids env e
      have hres : flowRecordsFor eid (resolve_and_dispatch env e).1 = [] := by
        unfold flowRecordsFor
        rw [List.filter_eq_nil_iff]
        intro d hd
        have := hids d hd
        simp [this, heq]
      by_cases hsp : shouldProcessB env e
      · cases hre : (resolve_and_dispatch env e).2 with
        | some err => simpa [hsp, hre] using hres
        | none =>
          have : flowRecordsFor eid ((resolve_and_dispatch env e).1 ++ sweepEmissionsPure env rest)
              = flowRecordsFor eid (resolve_and_dispatch env e).1
                ++ flowRecordsFor eid (sweepEmissionsPure env rest) := by
            unfold flowRecordsFor
            rw [flowRecords_append, List.filter_append]
          simp [hsp, hre, this, hres, ih]
      · simpa [hsp] using ih

/-- Slash replacement never yields the empty character list from a
non-empty one. -/
lemma replaceSlashChars_ne_nil (s : List Char) (h : s ≠ []) :
    replaceSlashChars s ≠ [] := by
  cases s with
  | nil => exact absurd rfl h
  | cons c rest =>
    unfold replaceSlashChars
    by_cases hc : c = '/'
    · simp [hc]
    · simp [hc]

/-- Slash replacement leaves no path separator behind. -/
lemma replaceSlashChars_no_slash (s : List Char) : '/' ∉ replaceSlashChars s := by
  induction s with
  | nil => simp [replaceSlashChars]
  | cons c rest ih =>
    unfold replaceSlashChars
    by_cases hc : c = '/'
    · simp only [hc, if_pos rfl]
      intro hmem
      rcases List.mem_append.mp hmem with hmem | hmem
      · revert hmem
        decide
      · exact ih hmem
    · simp only [if_neg hc]
      intro hmem
      rcases List.mem_append.mp hmem with hmem | hmem
      · exact hc (List.mem_singleton.mp hmem).symm
      · exact ih hmem

/-- Sanitizing a non-empty model string keeps it non-empty. -/
lemma replaceSlash_ne_empty (s : String) (h : s.length ≠ 0) : replaceSlash s ≠ "" := by
  intro hc
  have hdata : replaceSlashChars s.data = [] := congrArg String.data hc
  have hne : s.data ≠ [] := by
    intro h0
    exact h (by simp [String.length, h0])
  exact replaceSlashChars_ne_nil s.data hne hdata

/-- Every value of the modelled alias table is the canonical "IKEA". -/
lemma alias_lookup_eq (m a : String) (h : MANUFACTURER_ALIASES.lookup m = some a) :
    a = "IKEA" := by
  unfold MANUFACTURER_ALIASES at h
  by_cases hk : m == "Ikea"
  · simp [List.lookup, hk] at h
    exact h.symm
  · simp [List.lookup, hk] at h

/-- Alias substitution on a non-empty manufacturer string: the looked-up
canonical name when the table has one, the raw name otherwise; never the
empty string. -/
lemma aliasSubstitute_some (m : String) (hm : m ≠ "") :
    aliasSubstitute (some m) = some ((MANUFACTURER_ALIASES.lookup m).getD m)
      ∧ aliasSubstitute (some m) ≠ some "" := by
  have hg : aliasGet (some m) = MANUFACTURER_ALIASES.lookup m := rfl
  unfold aliasSubstitute
  rw [hg]
  cases hl : MANUFACTURER_ALIASES.lookup m with
  | none =>
    dsimp only
    refine ⟨by simp, ?_⟩
    intro hc
    exact hm (Option.some.inj hc)
  | some a =>
    have ha : a = "IKEA" := alias_lookup_eq m a hl
    subst ha
    dsimp only
    rw [show ("IKEA" : String).isEmpty = false from rfl]
    refine ⟨by simp, ?_⟩
    intro hc
    simp at hc

/-- Inversion of `autodiscover_model`: a resolved identity comes from a
located device whose coerced manufacturer and model strings are
non-empty, with the alias substitution and slash sanitization applied. -/
lemma autodiscover_model_inv (env : Env) (e : RegistryEntry) (mi : ModelInfo)
    (h : autodiscover_model env (some e) = some mi) :
    ∃ d : DeviceEntry,
      e.device_id.bind (fun did => env.devices.lookup did) = some d
      ∧ (pyStr d.manufacturer).length ≠ 0 ∧ (pyStr d.model).length ≠ 0
      ∧ mi = ⟨aliasSubstitute d.manufacturer, replaceSlash (pyStr d.model)⟩ := by
  unfold autodiscover_model at h
  dsimp only at h
  by_cases hi : has_manufacturer_and_model_information env e
  · rw [if_neg (by simp [hi])] at h
    cases hdev : e.device_id.bind (fun did => env.devices.lookup did) with
    | none =>
      rw [hdev] at h
      exact absurd h (by simp)
    | some d =>
      rw [hdev] at h
      have hlen : ¬((pyStr d.manufacturer).length == 0
          || (pyStr d.model).length == 0) = true := by
        intro hc
        unfold has_manufacturer_and_model_information at hi
        rw [hdev] at hi
        dsimp only at hi
        rw [if_pos hc] at hi
        exact absurd hi (by simp)
      refine ⟨d, rfl, ?_, ?_, ?_⟩
      · intro hc
        exact hlen (by simp [hc])
      · intro hc
        exact hlen (by simp [hc])
      · exact (Option.some.inj h).symm
  · rw [if_pos (by simp [Bool.eq_false_iff.mpr hi])] at h
    exact absurd h (by simp)

/-- Field facts of every resolved identity: the model is non-empty and
sanitized, and a present manufacturer is non-empty. -/
lemma autodiscover_model_fields (env : Env) (oe : Option RegistryEntry) (mi : ModelInfo)
    (h : autodiscover_model env oe = some mi) :
    mi.model ≠ "" ∧ '/' ∉ mi.model.data ∧ mi.manufacturer ≠ some "" := by
  cases oe with
  | none => exact absurd h (by simp [autodiscover_model])
  | some e =>
    obtain ⟨d, hdev, hm, hmo, hmi⟩ := autodiscover_model_inv env e mi h
    subst hmi
    refine ⟨replaceSlash_ne_empty _ hmo, ?_, ?_⟩
    · exact replaceSlashChars_no_slash _
    · cases hman : d.manufacturer with
      | none =>
        simp [aliasSubstitute, aliasGet]
      | some m =>
        have hm0 : m ≠ "" := by
          intro hc
          subst hc
          exact hm (by simp [pyStr, hman])
        exact (aliasSubstitute_some m hm0).2

/-- A scalar value contains no occurrences. -/
lemma scalar_yamlOccs (v : Yaml) (h : isScalar v = true) : yamlOccs v = [] := by
  cases v with
  | str s => rfl
  | pynone => rfl
  | dict kvs => simp [isScalar] at h
  | list xs => simp [isScalar] at h

/-- Unfolding of the scan at a dict item. -/
lemma find_cons_eq (k : String) (v : Yaml) (rest : YDict) :
    find_entity_ids_in_yaml_config (.cons k v rest)
      = (if k == "entity_id" then [v]
         else match v with
           | Yaml.dict kvs => find_entity_ids_in_yaml_config kvs
           | Yaml.list xs => find_in_yaml_list xs
           | _ => [])
        ++ find_entity_ids_in_yaml_config rest := by
  rw [find_entity_ids_in_yaml_config.eq_def]

/-- Unfolding of the scan at a dict-valued list item. -/
lemma find_list_cons_dict (kvs : YDict) (rest : YList) :
    find_in_yaml_list (.cons (Yaml.dict kvs) rest)
      = find_entity_ids_in_yaml_config kvs ++ find_in_yaml_list rest := by
  rw [find_in_yaml_list.eq_def]

/-- Unfolding of the occurrence collector at a dict item. -/
lemma dictOccs_cons (k : String) (v : Yaml) (rest : YDict) :
    dictOccs (.cons k v rest)
      = (if k == "entity_id" then [v] else []) ++ yamlOccs v ++ dictOccs rest := by
  rw [dictOccs.eq_def]

/-- Unfolding of the occurrence collector at a list item. -/
lemma listOccs_cons (x : Yaml) (rest : YList) :
    listOccs (.cons x rest) = yamlOccs x ++ listOccs rest := by
  rw [listOccs.eq_def]

/-- Occurrence collector on a string scalar. -/
lemma yamlOccs_str (s : String) : yamlOccs (.str s) = [] := by
  rw [yamlOccs.eq_def]

/-- Occurrence collector on the `None` scalar. -/
lemma yamlOccs_pynone : yamlOccs .pynone = [] := by
  rw [yamlOccs.eq_def]

/-- Occurrence collector on a dict. -/
lemma yamlOccs_dict (kvs : YDict) : yamlOccs (.dict kvs) = dictOccs kvs := by
  rw [yamlOccs.eq_def]

/-- Occurrence collector on a list. -/
lemma yamlOccs_list (xs : YList) : yamlOccs (.list xs) = listOccs xs := by
  rw [yamlOccs.eq_def]

/-- Unfolding of the shape restriction at a dict item. -/
lemma wellShapedDict_cons (k : String) (v : Yaml) (rest : YDict) :
    wellShapedDict (.cons k v rest)
      = ((if k == "entity_id" then isScalar v else wellShapedVal v) && wellShapedDict rest) := by
  rw [wellShapedDict.eq_def]

/-- Unfolding of the shape restriction at a dict-valued list item. -/
lemma wellShapedList_cons_dict (kvs : YDict) (rest : YList) :
    wellShapedList (.cons (Yaml.dict kvs) rest)
      = (wellShapedDict kvs && wellShapedList rest) := by
  rw [wellShapedList.eq_def]

/-- The shape restriction rejects non-dict list items. -/
lemma wellShapedList_cons_other (x : Yaml) (rest : YList)
    (h : ∀ kvs : YDict, x ≠ Yaml.dict kvs) :
    wellShapedList (.cons x rest) = false := by
  rw [wellShapedList.eq_def]
  cases x with
  | str s => rfl
  | pynone => rfl
  | dict kvs => exact absurd rfl (h kvs)
  | list xs => rfl

/-- Value shape restriction on a dict value. -/
lemma wellShapedVal_dict (kvs : YDict) : wellShapedVal (.dict kvs) = wellShapedDict kvs := by
  rw [wellShapedVal.eq_def]

/-- Value shape restriction on a list value. -/
lemma wellShapedVal_list (xs : YList) : wellShapedVal (.list xs) = wellShapedList xs := by
  rw [wellShapedVal.eq_def]

/-- On well-shaped structures the code's scan returns exactly the
specification-side occurrence list, proved jointly for dicts and lists by
strong induction on the size. -/
lemma scanAgreesAux (n : Nat) :
    (∀ kvs : YDict, sizeOf kvs ≤ n → wellShapedDict kvs = true →
      find_entity_ids_in_yaml_config kvs = dictOccs kvs)
    ∧ (∀ xs : YList, sizeOf xs ≤ n → wellShapedList xs = true →
      find_in_yaml_list xs = listOccs xs) := by
  induction n using Nat.strong_induction_on with
  | _ n ih =>
    constructor
    · intro kvs hsz hws
      cases kvs with
      | nil => rfl
      | cons k v rest =>
        simp only [YDict.cons.sizeOf_spec] at hsz
        have hszrest : sizeOf rest < n := by omega
        rw [wellShapedDict_cons, Bool.and_eq_true] at hws
        obtain ⟨hv, hrest⟩ := hws
        have ihrest := (ih (sizeOf rest) hszrest).1 rest le_rfl hrest
        rw [find_cons_eq, dictOccs_cons]
        by_cases hk : (k == "entity_id") = true
        · rw [if_pos hk] at hv ⊢
          rw [if_pos hk, scalar_yamlOccs v hv, ihrest]
          simp
        · rw [if_neg hk] at hv ⊢
          rw [if_neg hk]
          cases v with
          | str s => rw [yamlOccs_str, ihrest]; simp
          | pynone => rw [yamlOccs_pynone, ihrest]; simp
          | dict kvs2 =>
            simp only [Yaml.dict.sizeOf_spec] at hsz
            have hsz2 : sizeOf kvs2 < n := by omega
            rw [wellShapedVal_dict] at hv
            have ih2 := (ih (sizeOf kvs2) hsz2).1 kvs2 le_rfl hv
            dsimp only
            rw [yamlOccs_dict, ihrest, ih2]
            simp
          | list xs =>
            simp only [Yaml.list.sizeOf_spec] at hsz
            have hsz2 : sizeOf xs < n := by omega
            rw [wellShapedVal_list] at hv
            have ih2 := (ih (sizeOf xs) hsz2).2 xs le_rfl hv
            dsimp only
            rw [yamlOccs_list, ihrest, ih2]
            simp
    · intro xs hsz hws
      cases xs with
      | nil => rfl
      | cons x rest =>
        cases x with
        | str s =>
          rw [wellShapedList_cons_other (Yaml.str s) rest (by intro kvs hc; cases hc)] at hws
          exact absurd hws (by simp)
        | pynone =>
          rw [wellShapedList_cons_other Yaml.pynone rest (by intro kvs hc; cases hc)] at hws
          exact absurd hws (by simp)
        | list ys =>
          rw [wellShapedList_cons_other (Yaml.list ys) rest (by intro kvs hc; cases hc)] at hws
          exact absurd hws (by simp)
        | dict kvs =>
          simp only [YList.cons.sizeOf_spec, Yaml.dict.sizeOf_spec] at hsz
          have hszrest : sizeOf rest < n := by omega
          have hszk : sizeOf kvs < n := by omega
          rw [wellShapedList_cons_dict, Bool.and_eq_true] at hws
          obtain ⟨h1, h2⟩ := hws
          have ihrest := (ih (sizeOf rest) hszrest).2 rest le_rfl h2
          have ihk := (ih (sizeOf kvs) hszk).1 kvs le_rfl h1
          rw [find_list_cons_dict, listOccs_cons, yamlOccs_dict, ihrest, ihk]

/-- A dispatch without extra discovery data never produces a
vendor-special (WLED-marked) record. -/
lemma init_no_extra_no_wled (env : Env) (se : SourceEntity) (pp : Option PowerProfile) :
    (init_entity_discovery env se pp none).filter isWledFlow = [] := by
  unfold init_entity_discovery
  by_cases hdup : ((async_entries env DOMAIN).filter (fun ce =>
      ce.unique_id == some se.unique_id
      || ce.unique_id == some ("pc_" ++ se.unique_id))).isEmpty
  · cases pp with
    | none => simp [hdup, isWledFlow]
    | some p =>
      by_cases ha : p.is_additional_configuration_required
      · simp [hdup, ha, isWledFlow]
      · simp [hdup, ha, isWledFlow]
  · simp [hdup]

/-- Claim C1 counterexample: in the fixed environment `envC1` (one
matching light, no configuration entries, no state change between runs)
the second consecutive sweep emits a discovery record again — not zero
records.  The dedup consults only the configuration-entry store, and
dispatching a flow does not by itself create an entry. -/
theorem c1_counterexample :
    flowRecords (start_discovery envC1 (start_discovery envC1 dmInit).state).emissions ≠ [] := by
  rw [show flowRecords (start_discovery envC1 (start_discovery envC1 dmInit).state).emissions
    = [⟨"light.test", ⟨"light.test", "uid1", "light"⟩, some profC1,
       some "Signify", some "LCT001", none⟩] from rfl]
  exact List.cons_ne_nil _ _

/-- Claim C1 amended: for every fixed environment, running the sweep
twice in succession with no state change between the runs emits on the
second run exactly the records (and error) of the first run; the second
run emits zero records only when the first did. -/
theorem c1_amended (env : Env) :
    (start_discovery env (start_discovery env dmInit).state).emissions
      = (start_discovery env dmInit).emissions
    ∧ (start_discovery env (start_discovery env dmInit).state).error
      = (start_discovery env dmInit).error := by
  have h0 := sweep_entities_pure env env.entities dmInit (goodState_dmInit env)
  have h1 := sweep_entities_pure env env.entities
    (start_discovery env dmInit).state h0.2.2
  exact ⟨h1.1.trans h0.1.symm, h1.2.1.trans h0.2.1.symm⟩

/-- Claim C2: when any configuration entry of this domain carries the
source entity's unique id or its "pc_"-prefixed variant,
`_init_entity_discovery` dispatches nothing — no discovery flow and no
legacy platform-load payload. -/
theorem c2_dedup (env : Env) (se : SourceEntity) (pp : Option PowerProfile)
    (ex : Option ExtraData) (ce : ConfigEntry) (hmem : ce ∈ env.configEntries)
    (hdom : ce.domain = DOMAIN)
    (huid : ce.unique_id = some se.unique_id ∨ ce.unique_id = some ("pc_" ++ se.unique_id)) :
    init_entity_discovery env se pp ex = [] := by
  unfold init_entity_discovery
  have hfil : ce ∈ (async_entries env DOMAIN).filter (fun ce =>
      ce.unique_id == some se.unique_id
      || ce.unique_id == some ("pc_" ++ se.unique_id)) := by
    rw [List.mem_filter]
    refine ⟨?_, ?_⟩
    · unfold async_entries
      rw [List.mem_filter]
      exact ⟨hmem, by simp [hdom]⟩
    · rcases huid with h | h <;> simp [h]
  rw [if_pos ?hc]
  case hc =>
    have hne : ((async_entries env DOMAIN).filter (fun ce =>
        ce.unique_id == some se.unique_id
        || ce.unique_id == some ("pc_" ++ se.unique_id))) ≠ [] := by
      intro h0
      rw [h0] at hfil
      exact absurd hfil (List.not_mem_nil _)
    simp [isEmpty_false_of_ne_nil hne]

/-- Claim C2 witness at a concrete environment: an existing entry with
the entity's unique id suppresses the dispatch. -/
theorem c2_dedup_witness :
    init_entity_discovery envC2 seC2 none none = [] :=
  c2_dedup envC2 seC2 none none ⟨"powercalc", some "uidC2", "integration_discovery", none⟩
    (by simp [envC2]) rfl (Or.inl rfl)

/-- Claim C3 counterexample: in `envC3` the identifier "light.a" appears
inside the list value of an "entity_id" key of a powercalc platform block
(so it is manually configured in the claim's sense), yet the sweep emits
a discovery record for it — the scan stores the list itself, and the
string membership test never equals a list. -/
theorem c3_counterexample :
    "light.a" ∈ claimManualIds envC3
    ∧ flowRecordsFor "light.a" (start_discovery envC3 dmInit).emissions ≠ [] := by
  refine ⟨?_, ?_⟩
  · rw [show claimManualIds envC3 = ["light.a"] from rfl]
    exact List.mem_singleton.mpr rfl
  · rw [show flowRecordsFor "light.a" (start_discovery envC3 dmInit).emissions
      = [⟨"light.a", ⟨"light.a", "uidC3", "light"⟩, some profC3,
         some "Acme", some "L1", none⟩] from rfl]
    exact List.cons_ne_nil _ _

/-- Claim C3 amended: an entity whose identifier is held (as a value, by
Python equality) by the built manual-configuration index — a scalar
"entity_id" value of a powercalc platform block, or the stored entity id
of a user-initiated configuration entry — never receives a discovery
record from the sweep.  Identifiers that are only elements of a
list-valued "entity_id" are not held by the index. -/
theorem c3_amended (env : Env) (st : DMState) (eid : String)
    (hg : GoodState env st)
    (hmem : pyListContainsStr (load_manually_configured_entities env) eid = true) :
    flowRecordsFor eid (start_discovery env st).emissions = [] := by
  have h := sweep_entities_pure env env.entities st hg
  rw [show (start_discovery env st).emissions
    = (sweep_entities env st env.entities).emissions from rfl, h.1]
  exact sweepEmissionsPure_no_flow_for env eid hmem env.entities

/-- Claim C3 witness at a concrete environment: "light.b" is configured
with a scalar "entity_id" value and gets no record. -/
theorem c3_amended_witness :
    flowRecordsFor "light.b" (start_discovery envC3w dmInit).emissions = [] :=
  c3_amended envC3w dmInit "light.b" (Or.inl rfl) rfl

/-- Claim C4 counterexample: `yamlC4` holds one "entity_id" occurrence (in
a dict inside a list inside a list), but the scan returns zero values —
the list branch descends only into dict items, so a list nested directly
in a list is skipped. -/
theorem c4_counterexample :
    (find_entity_ids_in_yaml_config yamlC4).length = 0
    ∧ (dictOccs yamlC4).length = 1 :=
  ⟨rfl, rfl⟩

/-- Claim C4 amended: on every nested structure in which each list item
is a dict and each "entity_id" value is a scalar, the scan returns
exactly the occurrence list — all N occurrences, in depth-first order. -/
theorem c4_amended (kvs : YDict) (h : wellShapedDict kvs = true) :
    find_entity_ids_in_yaml_config kvs = dictOccs kvs :=
  (scanAgreesAux (sizeOf kvs)).1 kvs le_rfl h

/-- Claim C4 witness at a concrete well-shaped structure with three
occurrences at different depths. -/
theorem c4_amended_witness :
    find_entity_ids_in_yaml_config yamlC4w = dictOccs yamlC4w :=
  c4_amended yamlC4w rfl

/-- Claim C5 counterexample: in `envC5a` (empty manual configuration, two
eligible entities) one sweep runs the loader twice — an empty index is
falsy and is rebuilt on every check, not exactly once; and in `envC5b`
(non-empty index) two consecutive sweeps run the loader only once — the
second sweep reuses the cache instead of rebuilding it. -/
theorem c5_counterexample :
    (start_discovery envC5a dmInit).state.load_count = 2
    ∧ (start_discovery envC5b (start_discovery envC5b dmInit).state).state.load_count = 1 :=
  ⟨rfl, rfl⟩

/-- Claim C5 amended: the index is built lazily on the first eligibility
check and, once non-empty, is cached on the manager and reused by every
later check — a sweep starting from a non-empty cache never rebuilds it
(also across sweeps, so a later sweep reuses the possibly stale index),
and a sweep from a fresh manager with a non-empty index builds it at most
once. -/
theorem c5_amended :
    (∀ (env : Env) (st : DMState) (l : List Yaml),
      st.manually_configured_entities = some l → l ≠ [] →
      (start_discovery env st).state = st)
    ∧ (∀ env : Env, load_manually_configured_entities env ≠ [] →
      (start_discovery env dmInit).state.load_count ≤ 1) := by
  refine ⟨?_, ?_⟩
  · intro env st l hc hne
    exact sweep_entities_const env env.entities st l hc (isEmpty_false_of_ne_nil hne)
  · intro env hne
    have h := sweep_entities_build env env.entities (isEmpty_false_of_ne_nil hne)
      dmInit (Or.inl rfl)
    rcases h with h | h
    · rw [show (start_discovery env dmInit).state
        = (sweep_entities env dmInit env.entities).state from rfl, h]
      exact Nat.zero_le 1
    · rw [show (start_discovery env dmInit).state
        = (sweep_entities env dmInit env.entities).state from rfl, h]

/-- Claim C5 witness: a sweep started with a non-empty cache leaves it
untouched, and a sweep from a fresh manager loads at most once. -/
theorem c5_amended_witness :
    (start_discovery envC5b ⟨some [Yaml.str "light.z"], 5⟩).state
      = ⟨some [Yaml.str "light.z"], 5⟩
    ∧ (start_discovery envC5b dmInit).state.load_count ≤ 1 :=
  ⟨c5_amended.1 envC5b ⟨some [Yaml.str "light.z"], 5⟩ [Yaml.str "light.z"] rfl
      (List.cons_ne_nil _ _),
   c5_amended.2 envC5b (by
      rw [show load_manually_configured_entities envC5b = [Yaml.str "light.z"] from rfl]
      exact List.cons_ne_nil _ _)⟩

/-- Claim C6 counterexample: in `envC6` the first entity's source-entity
creation raises; the error escapes `start_discovery` and the remaining
matching entity (which alone, in `envC6two`, produces emissions) is never
processed — only ModelNotSupported is caught, not per-entity failures in
general. -/
theorem c6_counterexample :
    (start_discovery envC6 dmInit).error = some (PyErr.other "create_source_entity failure")
    ∧ (start_discovery envC6 dmInit).emissions = []
    ∧ (start_discovery envC6two dmInit).emissions ≠ [] := by
  refine ⟨rfl, rfl, ?_⟩
  rw [show (start_discovery envC6two dmInit).emissions
    = [Emission.flow ⟨"light.good", ⟨"light.good", "u6g", "light"⟩, some profC6,
        some "Acme", some "M2", none⟩,
       Emission.legacy ⟨"light.good", ⟨"light.good", "u6g", "light"⟩, profC6⟩] from rfl]
  exact List.cons_ne_nil _ _

/-- When the collaborators only ever signal ModelNotSupported, one loop
iteration raises nothing. -/
lemma process_entity_error_none (env : Env) (st : DMState) (e : RegistryEntry)
    (h1 : env.createSourceEntityFails = []) (h2 : env.libraryFailures = []) :
    (process_entity env st e).error = none := by
  unfold process_entity
  by_cases hp : (should_process_entity env st e).1
  · simp [hp, resolve_error_none env e h1 h2]
  · simp [hp]

/-- When the collaborators only ever signal ModelNotSupported, a sweep
raises nothing. -/
lemma sweep_error_none (env : Env)
    (h1 : env.createSourceEntityFails = []) (h2 : env.libraryFailures = []) :
    ∀ (es : List RegistryEntry) (st : DMState), (sweep_entities env st es).error = none := by
  intro es
  induction es with
  | nil => intro st; rfl
  | cons e rest ih =>
    intro st
    unfold sweep_entities
    cases herr : (process_entity env st e).error with
    | some err =>
      rw [process_entity_error_none env st e h1 h2] at herr
      exact absurd herr (by simp)
    | none => simpa [herr] using ih (process_entity env st e).state

/-- Claim C6 amended: the sweep's only per-entity containment is the
library lookup's ModelNotSupported signal, which is converted to a skip;
whenever the collaborators raise nothing else, no error ever leaves
`start_discovery`.  Any other raised error propagates out and aborts the
remaining entities (see the counterexample). -/
theorem c6_amended (env : Env) (st : DMState)
    (h1 : env.createSourceEntityFails = []) (h2 : env.libraryFailures = []) :
    (start_discovery env st).error = none :=
  sweep_error_none env h1 h2 env.entities st

/-- Claim C6 witness: a sweep over an entity unknown to the library
(ModelNotSupported) finishes without an error. -/
theorem c6_amended_witness :
    (start_discovery envC6w dmInit).error = none :=
  c6_amended envC6w dmInit rfl rfl

/-- Claim C7 counterexample: in `envC7` every vendor-special condition
holds for the candidate entity (WLED manufacturer, light domain, name
free of "master"/"segment", eligibility filter passes), yet the sweep
emits nothing — a configuration entry already carries the entity's unique
id, and the step-6 dedup also applies to the vendor-special path. -/
theorem c7_counterexample :
    autodiscover_model envC7 (some entC7) = some ⟨some MANUFACTURER_WLED, "FOSS"⟩
    ∧ entC7.domain = LIGHT_DOMAIN
    ∧ nameMatchesMasterOrSegment entC7.original_name = false
    ∧ (should_process_entity envC7 dmInit entC7).1 = true
    ∧ (start_discovery envC7 dmInit).emissions = [] :=
  ⟨rfl, rfl, rfl, rfl, rfl⟩

/-- Claim C7 amended: for a resolved identity with the WLED manufacturer
on a light entity, when the display name contains neither "master" nor
"segment" (case-insensitive) and no configuration entry matches the
entity's unique key, processing bypasses the library and dispatches
exactly one discovery record with no profile, carrying the WLED
calculation-mode marker and the manufacturer/model pair; when the name
does match, the entity gets no vendor-special record. -/
theorem c7_amended (env : Env) (e : RegistryEntry) (mi : ModelInfo)
    (hmi : autodiscover_model env (some e) = some mi)
    (hman : mi.manufacturer = some MANUFACTURER_WLED)
    (hdom : e.domain = LIGHT_DOMAIN)
    (hcreate : env.createSourceEntityFails.contains e.entity_id = false) :
    (nameMatchesMasterOrSegment e.original_name = false →
      ((async_entries env DOMAIN).filter (fun ce =>
        ce.unique_id == some e.unique_id
        || ce.unique_id == some ("pc_" ++ e.unique_id))).isEmpty = true →
      resolve_and_dispatch env e =
        ([Emission.flow ⟨e.entity_id, ⟨e.entity_id, e.unique_id, e.domain⟩, none,
          some MANUFACTURER_WLED, some mi.model, some CalculationStrategy_WLED⟩], none))
    ∧ (nameMatchesMasterOrSegment e.original_name = true →
      (resolve_and_dispatch env e).1.filter isWledFlow = []) := by
  have hmodel : mi.model ≠ "" := (autodiscover_model_fields env (some e) mi hmi).1
  have hf : (pyFalsyStrOpt mi.manufacturer || mi.model == "") = false := by
    rw [hman]
    simp [pyFalsyStrOpt, hmodel, show MANUFACTURER_WLED.isEmpty = false from rfl]
  have hcs : create_source_entity env e = .ok ⟨e.entity_id, e.unique_id, e.domain⟩ := by
    unfold create_source_entity
    rw [if_neg ?hmem]
    case hmem =>
      intro hc
      have hx : env.createSourceEntityFails.contains e.entity_id = true := hc
      rw [hcreate] at hx
      exact absurd hx (by simp)
  refine ⟨?_, ?_⟩
  · intro hname hdup
    have hw : (mi.manufacturer == some MANUFACTURER_WLED && e.domain == LIGHT_DOMAIN
        && !nameMatchesMasterOrSegment e.original_name) = true := by
      simp [hman, hdom, hname]
    unfold resolve_and_dispatch
    rw [hmi]
    dsimp only
    rw [if_neg (by simp [hf]), hcs]
    dsimp only
    rw [if_pos hw]
    unfold init_entity_discovery
    rw [if_neg (by simp [hdup])]
    rw [hman]
  · intro hname
    have hw : (mi.manufacturer == some MANUFACTURER_WLED && e.domain == LIGHT_DOMAIN
        && !nameMatchesMasterOrSegment e.original_name) = false := by
      simp [hname]
    unfold resolve_and_dispatch
    rw [hmi]
    dsimp only
    rw [if_neg (by simp [hf]), hcs]
    dsimp only
    rw [if_neg (by simp [hw])]
    cases hgp : get_power_profile env mi with
    | error err =>
      cases err with
      | modelNotSupported => rfl
      | other s => rfl
    | ok pp =>
      dsimp only
      by_cases hd2 : (!(pp.is_entity_domain_supported ⟨e.entity_id, e.unique_id, e.domain⟩)) = true
      · rw [if_pos hd2]
        rfl
      · rw [if_neg hd2]
        exact init_no_extra_no_wled env ⟨e.entity_id, e.unique_id, e.domain⟩ (some pp)

/-- Claim C7 witness: the concrete WLED light "light.wled1" produces
exactly the vendor-special record, and the segment sub-entity
"light.wled2" produces no vendor-special record. -/
theorem c7_amended_witness :
    resolve_and_dispatch envC7w entC7 =
      ([Emission.flow ⟨"light.wled1", ⟨"light.wled1", "u7", "light"⟩, none,
        some MANUFACTURER_WLED, some "FOSS", some CalculationStrategy_WLED⟩], none)
    ∧ (resolve_and_dispatch envC7w entC7seg).1.filter isWledFlow = [] :=
  ⟨(c7_amended envC7w entC7 ⟨some MANUFACTURER_WLED, "FOSS"⟩ rfl rfl rfl rfl).1 rfl rfl,
   (c7_amended envC7w entC7seg ⟨some MANUFACTURER_WLED, "FOSS"⟩ rfl rfl rfl rfl).2 rfl⟩

/-- Non-empty strings have non-zero length. -/
lemma string_length_ne_zero (s : String) (h : s ≠ "") : s.length ≠ 0 := by
  intro hc
  apply h
  have hd : s.data = [] := List.length_eq_zero.mp hc
  exact String.ext (by rw [hd])

/-- Claim C8: for an entity whose owning device exists with (non-empty)
manufacturer and model strings, `autodiscover_model` substitutes the
manufacturer through the alias table — unmapped names pass through
unchanged — and replaces every "/" of the model with "#slash#". -/
theorem c8_identity_resolution (env : Env) (e : RegistryEntry) (d : DeviceEntry)
    (m mo : String)
    (hdev : e.device_id.bind (fun did => env.devices.lookup did) = some d)
    (hm : d.manufacturer = some m) (hm0 : m ≠ "")
    (hmo : d.model = some mo) (hmo0 : mo ≠ "") :
    autodiscover_model env (some e)
      = some ⟨some ((MANUFACTURER_ALIASES.lookup m).getD m), replaceSlash mo⟩ := by
  have hml : (pyStr d.manufacturer).length ≠ 0 := by
    rw [hm]
    exact string_length_ne_zero m hm0
  have hmol : (pyStr d.model).length ≠ 0 := by
    rw [hmo]
    exact string_length_ne_zero mo hmo0
  have hinfo : has_manufacturer_and_model_information env e = true := by
    unfold has_manufacturer_and_model_information
    rw [hdev]
    dsimp only
    rw [if_neg (by simp [hml, hmol])]
  unfold autodiscover_model
  dsimp only
  rw [if_neg (by simp [hinfo]), hdev]
  dsimp only
  rw [hm, hmo, (aliasSubstitute_some m hm0).1]
  rfl

/-- Claim C8 witness: manufacturer "Ikea" aliased to "IKEA" with model
"TRADFRI/bulb" yields the identity (IKEA, TRADFRI#slash#bulb). -/
theorem c8_identity_resolution_witness :
    autodiscover_model envC8 (some entC8) = some ⟨some "IKEA", "TRADFRI#slash#bulb"⟩ :=
  c8_identity_resolution envC8 entC8 ⟨some "Ikea", some "TRADFRI/bulb"⟩
    "Ikea" "TRADFRI/bulb" rfl rfl (by decide) rfl (by decide)

/-- Claim C9 counterexample: a device whose manufacturer is `None` passes
the pre-check (its coercion "None" is non-empty), and
`autodiscover_model` returns a ModelInfo whose manufacturer field is
`None` — not a non-empty string, refuting the invariant that both fields
are non-empty. -/
theorem c9_counterexample :
    autodiscover_model envC9 (some entC9) = some ⟨none, "x"⟩
    ∧ ¬ modelInfoFieldsNonEmpty ⟨none, "x"⟩ := by
  refine ⟨rfl, ?_⟩
  intro h
  obtain ⟨⟨m, hm, _⟩, _⟩ := h
  exact Option.noConfusion hm

/-- Claim C9 amended: every ModelInfo returned by `autodiscover_model`
has a non-empty model with every "/" already replaced, and its
manufacturer is never the empty string — but it can be `None`, when the
device registry holds no manufacturer. -/
theorem c9_amended (env : Env) (oe : Option RegistryEntry) (mi : ModelInfo)
    (h : autodiscover_model env oe = some mi) :
    mi.model ≠ "" ∧ '/' ∉ mi.model.data ∧ mi.manufacturer ≠ some "" :=
  autodiscover_model_fields env oe mi h

/-- Claim C9 witness at a concrete resolution. -/
theorem c9_amended_witness :
    (⟨some "Signify", "LCT001"⟩ : ModelInfo).model ≠ ""
    ∧ '/' ∉ (⟨some "Signify", "LCT001"⟩ : ModelInfo).model.data
    ∧ (⟨some "Signify", "LCT001"⟩ : ModelInfo).manufacturer ≠ some "" :=
  c9_amended envC9w (some entC9w) ⟨some "Signify", "LCT001"⟩ rfl

/-- Claim C10: whenever the resolved ModelInfo for a registry entry is
null or has a falsy manufacturer or model, the loop iteration dispatches
nothing; and the pre-check indeed accepts a device whose manufacturer is
`None` (string coercion "None" is non-empty), so only the orchestrator's
secondary check filters such entities. -/
theorem c10_secondary_guard :
    (∀ (env : Env) (st : DMState) (e : RegistryEntry),
      (∀ mi : ModelInfo, autodiscover_model env (some e) = some mi →
        (pyFalsyStrOpt mi.manufacturer || mi.model == "") = true) →
      (process_entity env st e).emissions = [])
    ∧ (∀ (env : Env) (e : RegistryEntry) (did : String) (d : DeviceEntry),
      e.device_id = some did → env.devices.lookup did = some d →
      d.manufacturer = none → (pyStr d.model).length ≠ 0 →
      has_manufacturer_and_model_information env e = true) := by
  refine ⟨?_, ?_⟩
  · intro env st e h
    unfold process_entity
    by_cases hp : (should_process_entity env st e).1
    · have hres : (resolve_and_dispatch env e).1 = [] := by
        unfold resolve_and_dispatch
        cases hmi : autodiscover_model env (some e) with
        | none => rfl
        | some mi =>
          dsimp only
          rw [if_pos (h mi hmi)]
      simp [hp, hres]
    · simp [hp]
  · intro env e did d hdid hdev hman hmo
    unfold has_manufacturer_and_model_information
    rw [show e.device_id.bind (fun did => env.devices.lookup did) = some d by
      rw [hdid]; simpa using hdev]
    dsimp only
    rw [if_neg ?hcond]
    case hcond =>
      rw [hman, show pyStr none = "None" from rfl,
        show (("None" : String).length == 0) = false from rfl]
      simp [hmo]

/-- Claim C10 witness: the concrete device with `None` manufacturer
passes the pre-check, and its entity gets no emission. -/
theorem c10_secondary_guard_witness :
    (process_entity envC10 dmInit entC10).emissions = []
    ∧ has_manufacturer_and_model_information envC10 entC10 = true := by
  refine ⟨?_, ?_⟩
  · apply c10_secondary_guard.1 envC10 dmInit entC10
    intro mi hmi
    rw [show autodiscover_model envC10 (some entC10) = some ⟨none, "x"⟩ from rfl] at hmi
    cases Option.some.inj hmi
    rfl
  · exact c10_secondary_guard.2 envC10 entC10 "dev10" ⟨none, some "x"⟩ rfl rfl rfl (by decide)
